import Mathlib

/-!
Verification of the transcript-recorder core: a shallow embedding of the
stream-parsing, merge-queue, completion-barrier and event-queue code of the
repository, with theorems checking the specification's claims against it.

Sources embedded:
 * `src/whisper_stream_processor.py` (class `WhisperStreamProcessor`)
 * `src/llm_processor.py` (class `LLMProcessor`)
 * `app.py` (completion barrier `check_and_generate_summary_if_ready`,
   stream-queue publishing, `stop_recording` / `pause_recording` routes)
 * `src/services/session_service.py` (`SessionService._send_session_event`)
-/

namespace VMT

/- ### String helpers shared by the embedding.

Python strings are modelled as Lean `String`; `str.strip()`, `str.split()`
and the two regular expressions used by the stream processor are translated
to explicit character-list functions. -/

/-- Model of Python `str.strip()`: drop whitespace from both ends. -/
def pyStrip (s : String) : String :=
  String.mk (((s.toList.dropWhile Char.isWhitespace).reverse.dropWhile Char.isWhitespace).reverse)

/-- Maximal non-whitespace runs of a character list (Python `str.split()`
with no argument), fuelled by the input length. -/
def wordsGo : Nat → List Char → List (List Char)
  | 0, _ => []
  | fuel+1, cs =>
    match cs with
    | [] => []
    | c :: rest =>
      if c.isWhitespace then wordsGo fuel rest
      else (c :: rest.takeWhile fun d => !(d.isWhitespace)) ::
             wordsGo fuel (rest.dropWhile fun d => !(d.isWhitespace))

/-- Join word lists with single spaces (Python `" ".join(...)`). -/
def joinWords : List (List Char) → List Char
  | [] => []
  | [w] => w
  | w :: ws => w ++ ' ' :: joinWords ws

/-- Model of Python `" ".join(text.split())`: collapse whitespace runs to
single spaces and drop leading/trailing whitespace. -/
def collapseWs (s : String) : String :=
  String.mk (joinWords (wordsGo s.toList.length s.toList))

/-- Join strings with single spaces (Python `" ".join(parts)`). -/
def joinSpace (xs : List String) : String :=
  String.mk (joinWords (xs.map String.toList))

/-- Character class of the timestamp-marker regex `[\d:.\s\-\>]` used in
`_extract_transcript_from_block`, `_clean_transcript` and
`_is_transcript_line`. -/
def tsChar (c : Char) : Bool :=
  c.isDigit || c == ':' || c == '.' || c.isWhitespace || c == '-' || c == '>'

/-- Match the regex `\[[\d:.\s\-\>]+\]` at the head of the character list
(Python `re.match` is anchored at the start); returns the remainder after the
match.  Since neither `[` nor `]` belongs to the character class, the greedy
`+` needs no backtracking: take the maximal class run, then require `]`. -/
def tsMatchAt : List Char → Option (List Char)
  | [] => none
  | c :: rest =>
    if c == '[' then
      let run := rest.takeWhile tsChar
      let rest2 := rest.dropWhile tsChar
      if run.isEmpty then none
      else
        match rest2 with
        | [] => none
        | d :: r3 => if d == ']' then some r3 else none
    else none

/-- Worker for `re.sub` with the timestamp-marker pattern: scan left to
right, deleting every non-overlapping match (and, when `trailWs` is true, the
following `\s*` as in `_extract_transcript_from_block`).  Fuel is the length
of the input; every step consumes at least one character. -/
def subTsGo : Nat → Bool → List Char → List Char
  | 0, _, cs => cs
  | fuel+1, trailWs, cs =>
    match cs with
    | [] => []
    | c :: rest =>
      match tsMatchAt (c :: rest) with
      | some r3 => subTsGo fuel trailWs (if trailWs then r3.dropWhile Char.isWhitespace else r3)
      | none => c :: subTsGo fuel trailWs rest

/-- Model of `re.sub(r"\[[\d:.\s\-\>]+\]" ..., "", text)`, with `trailWs`
selecting the `\s*`-suffixed variant of the pattern. -/
def removeTsMarkers (trailWs : Bool) (s : String) : String :=
  String.mk (subTsGo s.toList.length trailWs s.toList)

/-- Worker deleting every occurrence of a literal pattern (used for the
`[BLANK_AUDIO]` artifact removal in `_clean_transcript`). -/
def removeLitGo : Nat → List Char → List Char → List Char
  | 0, _, cs => cs
  | fuel+1, pat, cs =>
    match cs with
    | [] => []
    | c :: rest =>
      if pat.isPrefixOf (c :: rest) then removeLitGo fuel pat ((c :: rest).drop pat.length)
      else c :: removeLitGo fuel pat rest

/-- Model of `re.sub(r"\[BLANK_AUDIO\]", "", text)`. -/
def removeBlankAudio (s : String) : String :=
  String.mk (removeLitGo s.toList.length ("[BLANK_AUDIO]".toList) s.toList)

/-- Substring containment, the Python `pat in s` test on strings. -/
def containsSubList (pat : List Char) : List Char → Bool
  | [] => pat.isPrefixOf ([] : List Char)
  | c :: rest => pat.isPrefixOf (c :: rest) || containsSubList pat rest

/-- Python `pat in s` on strings. -/
def strContains (s pat : String) : Bool := containsSubList pat.toList s.toList

/- ### WhisperStreamProcessor (src/whisper_stream_processor.py) -/

/-- Embedding of `WhisperStreamProcessor._clean_transcript`: remove timestamp
markers, remove `[BLANK_AUDIO]`, collapse whitespace, strip. -/
def cleanTranscript (text : String) : String :=
  if text == "" then ""
  else pyStrip (collapseWs (removeBlankAudio (removeTsMarkers false text)))

/-- Lines of a transcription block that carry a timestamp-range prefix, with
the markers removed and stripped (the loop body of
`_extract_transcript_from_block`); empty remainders are skipped. -/
def timestampedText : List String → List String
  | [] => []
  | line :: rest =>
    match tsMatchAt line.toList with
    | some _ =>
      let after := pyStrip (removeTsMarkers true line)
      if after == "" then timestampedText rest
      else after :: timestampedText rest
    | none => timestampedText rest

/-- Embedding of `WhisperStreamProcessor._extract_transcript_from_block`:
join the timestamped parts with single spaces and clean the result. -/
def extractTranscriptFromBlock (blockLines : List String) : String :=
  cleanTranscript (joinSpace (timestampedText blockLines))

/-- One RawTranscript record as built in `_add_transcript_block` /
`_add_direct_transcript`.  The `uuid.uuid4()` id and `datetime.now()`
timestamp are external nondeterminism; they are modelled by the processor's
monotone `clock` counter, which the claims never inspect. -/
structure WTranscript where
  tid : Nat
  session_id : Option String
  text : String
  timestamp : Nat
  sequence_number : Nat
  audio_source : String
  deriving Repr, DecidableEq

/-- Mutable state of one `WhisperStreamProcessor` instance.  `binary_exists`
and `model_exists` model the two `os.path.exists` checks of
`start_streaming`; `clock` models the passage of time / uuid supply. -/
structure WState where
  audio_source : String
  use_fixed_interval : Bool
  accumulated_transcripts : List WTranscript
  transcript_counter : Nat
  current_transcription_block : List String
  in_transcription_block : Bool
  is_running : Bool
  session_id : Option String
  total_transcripts : Nat
  processing_errors : Nat
  binary_exists : Bool
  model_exists : Bool
  clock : Nat
  deriving Repr, DecidableEq

/-- Shared emission step of `_add_transcript_block` and
`_add_direct_transcript`: bump the counters, build the transcript record and
append it to the accumulator.  (The callback publication carries the same
record and is observed through the accumulator.) -/
def emitTranscript (st : WState) (text : String) : WState :=
  let seq := st.transcript_counter + 1
  let t : WTranscript :=
    { tid := st.clock, session_id := st.session_id, text := text, timestamp := st.clock,
      sequence_number := seq, audio_source := st.audio_source }
  { st with transcript_counter := seq, total_transcripts := st.total_transcripts + 1,
            accumulated_transcripts := st.accumulated_transcripts ++ [t],
            clock := st.clock + 1 }

/-- Embedding of `WhisperStreamProcessor._add_transcript_block`. -/
def addTranscriptBlock (st : WState) (blockLines : List String) : WState :=
  if extractTranscriptFromBlock blockLines == "" then st
  else emitTranscript st (extractTranscriptFromBlock blockLines)

/-- Embedding of `WhisperStreamProcessor._add_direct_transcript`. -/
def addDirectTranscript (st : WState) (line : String) : WState :=
  if cleanTranscript line == "" then st
  else emitTranscript st (cleanTranscript line)

/-- Predicate of `_is_transcript_line`: the stripped line matches
`^\[[\d:.\s\-\>]+\]$` (a bare timestamp line). -/
def isBareTimestamp (s : String) : Bool :=
  match tsMatchAt s.toList with
  | some rest => rest.isEmpty
  | none => false

/-- Character class of `^[\s\d\.\,\!\?\-\[\]]+$` in `_is_transcript_line`. -/
def punctDigitChar (c : Char) : Bool :=
  c.isWhitespace || c.isDigit || c == '.' || c == ',' || c == '!' || c == '?' ||
    c == '-' || c == '[' || c == ']'

/-- Predicate of `_is_transcript_line`: the stripped line is only
punctuation, digits, whitespace or brackets. -/
def isPunctOrDigitsOnly (s : String) : Bool :=
  !(s.toList.isEmpty) && s.toList.all punctDigitChar

/-- Regex `^main:\s` of `_is_transcript_line`. -/
def startsWithMainDiag (s : String) : Bool :=
  (("main:".toList).isPrefixOf s.toList) &&
    (match s.toList.drop 5 with
     | c :: _ => c.isWhitespace
     | [] => false)

/-- Anchored literal-pattern test, `re.match` with a plain literal. -/
def startsWithPat (pat : String) (s : String) : Bool :=
  (pat.toList).isPrefixOf s.toList

/-- Regex `^\[.*\]$` of `_is_transcript_line`: first char `[`, last `]`. -/
def isBracketedStatus (s : String) : Bool :=
  match s.toList with
  | [] => false
  | c :: rest =>
    c == '[' && (match rest.getLast? with
                 | some d => d == ']'
                 | none => false)

/-- Regex `[a-zA-Z]` search of `_is_transcript_line` (ASCII letters only,
exactly as the pattern says). -/
def hasAlpha (s : String) : Bool :=
  s.toList.any fun c => (('a' ≤ c && c ≤ 'z') || ('A' ≤ c && c ≤ 'Z'))

/-- Embedding of `WhisperStreamProcessor._is_transcript_line`, the
fixed-interval line classifier, translated check for check — including the
final unconditional `return False` at the end of the Python function. -/
def isTranscriptLine (line : String) : Bool :=
  let s := pyStrip line
  if 150 < s.toList.length then true
  else if s.toList.length < 3 then false
  else if isBareTimestamp s then false
  else if isPunctOrDigitsOnly s then false
  else if startsWithMainDiag s then false
  else if startsWithPat ("whisper_") s then false
  else if startsWithPat ("ggml_") s then false
  else if isBracketedStatus s then false
  else if !(hasAlpha line) then false
  else if s.toList.length < 10 then false
  else false

/-- Embedding of `WhisperStreamProcessor._process_line` after the initial
`line = line.strip()` statement (performed by `processLine` below).  In the
fixed-interval branch, a line that is not a transcript is either logged as a
filtered debug message or as an unprocessed line; both leave the state
unchanged, so `_is_debug_message` (which only selects between the two log
messages) does not appear in the state semantics. -/
def processLineCore (st : WState) (line : String) : WState :=
  if line == "" then st
  else if strContains line ("### Transcription") && strContains line ("START") then
    { st with in_transcription_block := true, current_transcription_block := [] }
  else if strContains line ("### Transcription") && strContains line ("END") then
    if st.in_transcription_block && !(st.current_transcription_block.isEmpty) then
      { addTranscriptBlock st st.current_transcription_block with
          in_transcription_block := false, current_transcription_block := [] }
    else { st with in_transcription_block := false, current_transcription_block := [] }
  else if st.in_transcription_block then
    { st with current_transcription_block := st.current_transcription_block ++ [line] }
  else if st.use_fixed_interval then
    if isTranscriptLine line then addDirectTranscript st line else st
  else st

/-- Embedding of `_process_line` on the raw subprocess line: the function
first strips the line (`line = line.strip()`), then branches. -/
def processLine (st : WState) (rawLine : String) : WState :=
  processLineCore st (pyStrip rawLine)

/-- Feed a sequence of subprocess output lines through `_process_line`. -/
def processLines (st : WState) (lines : List String) : WState :=
  lines.foldl processLine st

/-- Embedding of `WhisperStreamProcessor.start_streaming`: fails (returning
`false`, state unchanged) when already running or when the binary or the
model file is missing; otherwise resets the per-session state. -/
def startStreaming (st : WState) (sid : String) : Bool × WState :=
  if st.is_running then (false, st)
  else if !st.binary_exists then (false, st)
  else if !st.model_exists then (false, st)
  else
    (true,
      { st with session_id := some sid, is_running := true,
                accumulated_transcripts := [], transcript_counter := 0,
                current_transcription_block := [], in_transcription_block := false,
                clock := st.clock + 1 })

/-- Result dictionary of `WhisperStreamProcessor.stop_streaming` (the
wall-clock `duration` entry is real time and not modelled). -/
inductive StopOutcome where
  | err (msg : String)
  | stats (session_id : Option String)
      (total_transcripts accumulated_count processing_errors : Nat)
  deriving Repr, DecidableEq

/-- Embedding of `WhisperStreamProcessor.stop_streaming`: error descriptor
when not running; otherwise clear `is_running` and report statistics.  The
accumulated-transcripts list itself is only measured (`len`), never written. -/
def stopStreaming (st : WState) : StopOutcome × WState :=
  if !st.is_running then (StopOutcome.err ("Streaming not running"), st)
  else
    (StopOutcome.stats st.session_id st.total_transcripts
        st.accumulated_transcripts.length st.processing_errors,
      { st with is_running := false })

/-- Embedding of `WhisperStreamProcessor.get_accumulated_transcripts`
(returns a copy of the buffer). -/
def getAccumulatedTranscripts (st : WState) : List WTranscript :=
  st.accumulated_transcripts

/-- Embedding of `WhisperStreamProcessor.clear_accumulated_transcripts`. -/
def clearAccumulatedTranscripts (st : WState) : WState :=
  { st with accumulated_transcripts := [] }

/-- Fresh processor as built by `WhisperStreamProcessor.__init__` (with both
resource files present in the environment). -/
def initWState (source : String) (fixedInterval : Bool) : WState :=
  { audio_source := source, use_fixed_interval := fixedInterval,
    accumulated_transcripts := [], transcript_counter := 0,
    current_transcription_block := [], in_transcription_block := false,
    is_running := false, session_id := none, total_transcripts := 0,
    processing_errors := 0, binary_exists := true, model_exists := true,
    clock := 0 }

/- ### LLMProcessor merge queue and the completion barrier
(src/llm_processor.py and app.py) -/

/-- One queued merge job, the dictionary built by
`LLMProcessor.process_transcripts_async`.  The `status` field is set to
`"queued"` at creation and — as in the source — never updated afterwards.
`transcript_count` stands for `len(job["transcripts"])`. -/
structure MergeJob where
  job_id : Nat
  session_id : String
  status : String
  transcript_count : Nat
  deriving Repr, DecidableEq

/-- Queue-related state of one `LLMProcessor`.  `processing_queue` is the
list the worker pops from; `current_job` is the job a worker has already
popped (`self.processing_queue.pop(0)`) and is still processing — such a job
is no longer in `processing_queue` and is therefore invisible to
`get_queue_status`. -/
structure LLMState where
  processing_queue : List MergeJob
  is_processing : Bool
  current_job : Option MergeJob
  deriving Repr, DecidableEq

/-- Embedding of `LLMProcessor.get_queue_status`: the jobs still sitting in
`processing_queue` (and only those). -/
def getQueueStatus (st : LLMState) : List MergeJob :=
  st.processing_queue

/-- Module-level state of app.py around the completion barrier:
`sessions_waiting_for_summary` (a set, modelled as a duplicate-free list) and
the record of summary jobs started so far (`generate_session_summary_async`
calls, which the source fires at most once per barrier clearing). -/
structure AppState where
  llm : LLMState
  waiting : List String
  summaries_submitted : List String
  deriving Repr, DecidableEq

/-- Embedding of `check_and_generate_summary_if_ready` (app.py).  Returns
immediately when the session is not in the pending-summary set; defers when
`get_queue_status` still lists a job of this session with status `queued` or
`processing`; otherwise removes the session from the set and starts the
summary generation.  (`set.remove` is modelled by filtering the id out; the
exception branch cannot fire in the model.) -/
def checkAndGenerate (sid : String) (st : AppState) : AppState :=
  if sid ∈ st.waiting then
    if (getQueueStatus st.llm).filter (fun j =>
          j.session_id == sid && (j.status == "queued" || j.status == "processing")) = [] then
      { st with waiting := st.waiting.filter fun y => !(y == sid),
                summaries_submitted := st.summaries_submitted ++ [sid] }
    else st
  else st

/-- Repeated triggers of the completion barrier (each element is the session
id a completion callback re-invokes the check for). -/
def applyTriggers (l : List String) (st : AppState) : AppState :=
  l.foldl (fun s x => checkAndGenerate x s) st

/-- Number of summary jobs started for a session. -/
def countSummaries (st : AppState) (sid : String) : Nat :=
  st.summaries_submitted.count sid

/-- Claim-side reading of a merge job of the session being `queued` or
`processing` (spec data model, §3): the job is still in the processing queue
(queued) or has been taken by the worker and not yet finished (processing,
held in `current_job`). -/
def mergeJobStillPending (st : AppState) (sid : String) : Bool :=
  st.llm.processing_queue.any (fun j => j.session_id == sid) ||
    (match st.llm.current_job with
     | some j => j.session_id == sid
     | none => false)

/- ### Interleaved worker threads of the merge queue
(src/llm_processor.py, `process_transcripts_async` + `_process_queue_worker`)

Every `process_transcripts_async` call appends a job to `processing_queue`
and spawns a NEW thread running `_process_queue_worker`.  The worker loop is
modelled as a small-step program; one configuration step executes one
statement of one thread, so any interleaving of the spawned threads is a
schedule.  Program counters follow the Python statements:

  loopHead  : `while self.processing_queue:` (exit when empty)
  busyCheck : `if self.is_processing: continue` (the sleep is a no-op step)
  acquire   : `self.is_processing = True`
  popJob    : `job_data = self.processing_queue.pop(0)` (pop on an empty
              queue raises IndexError, caught by the except; the finally
              then releases the flag)
  processing: the LLM call for the popped job is in flight
  release   : `self.is_processing = False` (the finally block)
-/

/-- Program counter of one `_process_queue_worker` thread. -/
inductive TPc where
  | loopHead
  | busyCheck
  | acquire
  | popJob
  | processing (jid : Nat)
  | release
  | halted
  deriving Repr, DecidableEq

/-- Configuration of the `LLMProcessor` under a set of worker threads.
`submitted`, `started` and `completed` are the observable event histories
(job ids in order of submission, of `pop(0)`, and of completion). -/
structure QConfig where
  queue : List MergeJob
  busy : Bool
  threads : List TPc
  submitted : List Nat
  started : List Nat
  completed : List Nat
  nextId : Nat
  deriving Repr, DecidableEq

/-- Embedding of `LLMProcessor.process_transcripts_async`: append the job
(status `"queued"`) to the queue and spawn a fresh worker thread. -/
def submitJob (c : QConfig) (sid : String) : QConfig :=
  { c with
      queue := c.queue ++
        [{ job_id := c.nextId, session_id := sid, status := "queued", transcript_count := 0 }],
      submitted := c.submitted ++ [c.nextId],
      nextId := c.nextId + 1,
      threads := c.threads ++ [TPc.loopHead] }

/-- Execute the statement a worker thread at program counter `pc` is about
to run (thread `i` of the configuration). -/
def tstepPc (c : QConfig) (i : Nat) : TPc → QConfig
  | TPc.loopHead =>
    if c.queue = [] then { c with threads := c.threads.set i TPc.halted }
    else { c with threads := c.threads.set i TPc.busyCheck }
  | TPc.busyCheck =>
    if c.busy then { c with threads := c.threads.set i TPc.loopHead }
    else { c with threads := c.threads.set i TPc.acquire }
  | TPc.acquire =>
    { c with busy := true, threads := c.threads.set i TPc.popJob }
  | TPc.popJob =>
    match c.queue with
    | [] => { c with threads := c.threads.set i TPc.release }
    | j :: rest =>
      { c with queue := rest, started := c.started ++ [j.job_id],
               threads := c.threads.set i (TPc.processing j.job_id) }
  | TPc.processing jid =>
    { c with completed := c.completed ++ [jid],
             threads := c.threads.set i TPc.release }
  | TPc.release =>
    { c with busy := false, threads := c.threads.set i TPc.loopHead }
  | TPc.halted => c

/-- Execute one statement of worker thread `i` (no-op on an invalid index). -/
def tstep (c : QConfig) (i : Nat) : QConfig :=
  match c.threads.get? i with
  | none => c
  | some pc => tstepPc c i pc

/-- A scheduled action: a `submit` call by the producer, or one step of a
worker thread. -/
inductive QAction where
  | submitA (sid : String)
  | stepA (i : Nat)
  deriving Repr, DecidableEq

/-- Run a schedule from a configuration. -/
def runQFrom (c : QConfig) (acts : List QAction) : QConfig :=
  acts.foldl
    (fun c a =>
      match a with
      | QAction.submitA sid => submitJob c sid
      | QAction.stepA i => tstep c i)
    c

/-- The initial configuration: fresh `LLMProcessor`, no threads. -/
def initQ : QConfig :=
  { queue := [], busy := false, threads := [], submitted := [], started := [],
    completed := [], nextId := 0 }

/-- Run a schedule from the initial configuration. -/
def runQ (acts : List QAction) : QConfig :=
  runQFrom initQ acts

/-- Number of threads currently processing a job. -/
def countProcessing (c : QConfig) : Nat :=
  c.threads.countP fun t =>
    match t with
    | TPc.processing _ => true
    | _ => false

/- ### Event queue publishing (app.py `stream_queue`,
src/services/session_service.py `SessionService._send_session_event`) -/

/-- The bounded SSE stream queue (`queue.Queue(maxsize=1000)`); events are
modelled by their type tag and timestamp. -/
structure SessionEvent where
  etype : String
  timestamp : Nat
  deriving Repr, DecidableEq

/-- Bounded FIFO queue state. -/
structure StreamQueue where
  maxsize : Nat
  items : List SessionEvent
  deriving Repr, DecidableEq

/-- Result of one publish call: the whole mutable state it can touch (the
queue), whether an exception escaped to the caller, and whether the
queue-full warning was printed. -/
structure PublishOut where
  queue : StreamQueue
  raised : Bool
  warned : Bool
  deriving Repr, DecidableEq

/-- Embedding of `SessionService._send_session_event`: build the event dict
and `put` it with `block=False`; `queue.Full` is caught and only printed.
`put(block=False)` on a `maxsize>0` queue raises `Full` exactly when
`qsize() >= maxsize` and otherwise appends without blocking. -/
def sendSessionEvent (q : StreamQueue) (etype : String) (now : Nat) : PublishOut :=
  if q.items.length < q.maxsize then
    { queue := { q with items := q.items ++ [{ etype := etype, timestamp := now }] },
      raised := false, warned := false }
  else
    { queue := q, raised := false, warned := true }

/- ### Pause and resume of a stream processor -/

/-- Result dictionary shape used by the pause/resume callers in app.py
(`results[k].get("success")` / `results[k].get("error")`). -/
structure OpResult where
  success : Bool
  error : Option String
  deriving Repr, DecidableEq

/-- Pause flag state of one stream processor. -/
structure PauseState where
  is_running : Bool
  is_paused : Bool
  deriving Repr, DecidableEq

/-- Modelled from the spec: `WhisperStreamProcessor.pause_streaming` is
called by `pause_recording` in app.py but is absent from the class in src/;
§4.1 of the spec gives its contract (pause returns a success flag with an
optional error message and moves Running to Paused).  Failure carries an
error message; success carries none. -/
def pause_streaming (s : PauseState) : OpResult × PauseState :=
  if !s.is_running then
    ({ success := false, error := some ("Streaming not running") }, s)
  else if s.is_paused then
    ({ success := false, error := some ("Already paused") }, s)
  else
    ({ success := true, error := none }, { s with is_paused := true })

/-- Modelled from the spec: `WhisperStreamProcessor.resume_streaming` is
called by `resume_recording` in app.py but is absent from the class in src/;
§4.1 of the spec gives its contract (resume returns a success flag with an
optional error message and moves Paused back to Running). -/
def resume_streaming (s : PauseState) : OpResult × PauseState :=
  if !s.is_running then
    ({ success := false, error := some ("Streaming not running") }, s)
  else if !s.is_paused then
    ({ success := false, error := some ("Not paused") }, s)
  else
    ({ success := true, error := none }, { s with is_paused := false })

/- ### Session summary generation (src/llm_processor.py,
`LLMProcessor.generate_session_summary`)

The `json.loads` call on the LLM response is modelled by a small executable
JSON parser (objects, arrays, strings with the common escapes, integers and
literals; floating-point numbers are not modelled — parsing simply fails for
them, which none of the inputs used here contain). -/

/-- JSON values as produced by `json.loads`. -/
inductive Json where
  | null
  | jbool (b : Bool)
  | num (n : Int)
  | str (s : String)
  | arr (xs : List Json)
  | obj (fields : List (String × Json))
  deriving Repr

/-- JSON insignificant whitespace. -/
def jsonWs (c : Char) : Bool :=
  c == ' ' || c == '\t' || c == '\n' || c == '\r'

/-- Skip JSON whitespace. -/
def skipJWs (cs : List Char) : List Char := cs.dropWhile jsonWs

/-- An opening curly brace character. -/
def lbraceC : Char := Char.ofNat 123

/-- A closing curly brace character. -/
def rbraceC : Char := Char.ofNat 125

/-- Parse the remainder of a JSON string literal (after the opening quote). -/
def pStrChars : Nat → List Char → Option (List Char × List Char)
  | 0, _ => none
  | fuel+1, cs =>
    match cs with
    | [] => none
    | c :: rest =>
      if c == '"' then some ([], rest)
      else if c == '\\' then
        match rest with
        | [] => none
        | e :: rest2 =>
          let dec : Option Char :=
            if e == 'n' then some '\n'
            else if e == 't' then some '\t'
            else if e == 'r' then some '\r'
            else if e == '"' then some '"'
            else if e == '\\' then some '\\'
            else if e == '/' then some '/'
            else none
          match dec with
          | some d => (pStrChars fuel rest2).map fun pr => (d :: pr.1, pr.2)
          | none => none
      else (pStrChars fuel rest).map fun pr => (c :: pr.1, pr.2)

/-- Digit run to a natural number. -/
def digitsToNat (ds : List Char) : Nat :=
  ds.foldl (fun a c => a * 10 + (c.toNat - 48)) 0

/-- Parse a nonempty digit run; fails on a following `.`, `e` or `E` (the
unmodelled floating-point forms). -/
def pNat (cs : List Char) : Option (Nat × List Char) :=
  let ds := cs.takeWhile Char.isDigit
  let rest := cs.dropWhile Char.isDigit
  if ds.isEmpty then none
  else
    match rest with
    | c :: _ => if c == '.' || c == 'e' || c == 'E' then none else some (digitsToNat ds, rest)
    | [] => some (digitsToNat ds, rest)

mutual

/-- Parse one JSON value; fuel decreases on every recursive call. -/
def pVal : Nat → List Char → Option (Json × List Char)
  | 0, _ => none
  | fuel+1, cs0 =>
    let cs := skipJWs cs0
    match cs with
    | [] => none
    | c :: rest =>
      if c == '"' then (pStrChars fuel rest).map fun pr => (Json.str (String.mk pr.1), pr.2)
      else if c == '[' then
        let r1 := skipJWs rest
        match r1 with
        | [] => none
        | d :: r2 =>
          if d == ']' then some (Json.arr [], r2)
          else (pElems fuel r1).map fun pr => (Json.arr pr.1, pr.2)
      else if c == lbraceC then
        let r1 := skipJWs rest
        match r1 with
        | [] => none
        | d :: r2 =>
          if d == rbraceC then some (Json.obj [], r2)
          else (pFields fuel r1).map fun pr => (Json.obj pr.1, pr.2)
      else if ("null".toList).isPrefixOf cs then some (Json.null, cs.drop 4)
      else if ("true".toList).isPrefixOf cs then some (Json.jbool true, cs.drop 4)
      else if ("false".toList).isPrefixOf cs then some (Json.jbool false, cs.drop 5)
      else if c == '-' then (pNat rest).map fun pr => (Json.num (-(pr.1 : Int)), pr.2)
      else if c.isDigit then (pNat cs).map fun pr => (Json.num ((pr.1 : Nat) : Int), pr.2)
      else none

/-- Parse the elements of a nonempty JSON array (up to the closing bracket). -/
def pElems : Nat → List Char → Option (List Json × List Char)
  | 0, _ => none
  | fuel+1, cs =>
    match pVal fuel cs with
    | none => none
    | some (v, rest) =>
      let r1 := skipJWs rest
      match r1 with
      | [] => none
      | d :: r2 =>
        if d == ',' then (pElems fuel r2).map fun pr => (v :: pr.1, pr.2)
        else if d == ']' then some ([v], r2)
        else none

/-- Parse the fields of a nonempty JSON object (up to the closing brace). -/
def pFields : Nat → List Char → Option (List (String × Json) × List Char)
  | 0, _ => none
  | fuel+1, cs =>
    let cs1 := skipJWs cs
    match cs1 with
    | [] => none
    | c :: rest =>
      if c == '"' then
        match pStrChars fuel rest with
        | none => none
        | some (k, r1) =>
          let r2 := skipJWs r1
          match r2 with
          | [] => none
          | d :: r3 =>
            if d == ':' then
              match pVal fuel r3 with
              | none => none
              | some (v, r4) =>
                let r5 := skipJWs r4
                match r5 with
                | [] => none
                | e :: r6 =>
                  if e == ',' then
                    (pFields fuel r6).map fun pr => ((String.mk k, v) :: pr.1, pr.2)
                  else if e == rbraceC then some ([(String.mk k, v)], r6)
                  else none
            else none
      else none

end

/-- Model of `json.loads`: parse one value and require only whitespace after
it; any other input raises `JSONDecodeError` (here: `none`). -/
def jsonLoads (s : String) : Option Json :=
  match pVal (4 * s.toList.length + 8) s.toList with
  | some (v, rest) => if (skipJWs rest).isEmpty then some v else none
  | none => none

/-- Key lookup in a parsed object (`summary_data["key"]`; the inputs used
here have no duplicate keys, so first-match lookup coincides with the
last-wins semantics of a Python dict). -/
def jsonLookup (fields : List (String × Json)) (key : String) : Option Json :=
  (fields.find? fun kv => kv.1 == key).map fun kv => kv.2

/-- The shape checks `generate_session_summary` performs on the parsed
response: it must be a dict containing `summary` and `keywords`, and
`keywords` must be a list of exactly 5 items.  The summary value's type and
the keyword items' types are NOT checked by the source.  Returns the
extracted `(summary, keywords)` pair when the checks pass. -/
def summaryShape (j : Json) : Option (Json × List Json) :=
  match j with
  | Json.obj fields =>
    match jsonLookup fields ("summary"), jsonLookup fields ("keywords") with
    | some s, some kw =>
      match kw with
      | Json.arr ks => if ks.length = 5 then some (s, ks) else none
      | _ => none
    | _, _ => none
  | _ => none

/-- Result of `generate_session_summary` (the fields the claims inspect;
counts, timing and timestamps omitted). -/
structure SummaryOutcome where
  session_id : String
  status : String
  summary : Option Json
  keywords : Option (List Json)
  deriving Repr

/-- Embedding of `LLMProcessor.generate_session_summary` downstream of the
LLM call: `content` is the response text (`response.choices[0].message.content`),
`processed` the processed-transcript list (only its emptiness is read before
the call).  JSON-parse or shape failure falls back to the whole (stripped)
response as the summary with an empty keyword list, still `"success"`. -/
def generateSessionSummary (processed : List String) (sid : String)
    (content : String) : SummaryOutcome :=
  if processed = [] then
    { session_id := sid, status := "error", summary := none, keywords := none }
  else
    match (jsonLoads (pyStrip content)).bind summaryShape with
    | some pr =>
      { session_id := sid, status := "success", summary := some pr.1, keywords := some pr.2 }
    | none =>
      { session_id := sid, status := "success",
        summary := some (Json.str (pyStrip content)), keywords := some [] }

/-- Claim-side reading of the response shape (spec §4.3/§6): the content
parses as JSON into an object whose `summary` is a string and whose
`keywords` is a list of exactly five keyword strings. -/
def claimSummaryShape (mj : Option Json) : Bool :=
  match mj with
  | some (Json.obj fields) =>
    (match jsonLookup fields ("summary") with
     | some (Json.str _) => true
     | _ => false) &&
    (match jsonLookup fields ("keywords") with
     | some (Json.arr ks) =>
       (ks.length == 5) && ks.all fun k =>
         match k with
         | Json.str _ => true
         | _ => false
     | _ => false)
  | _ => false

/- ### Theorems for the claims -/

/-- C9: feeding the block-mode parser the four lines
`### Transcription 0 START`, `[00:00:00.000 --> 00:00:02.000] hello`,
`[00:00:02.000 --> 00:00:04.000] world`, `### Transcription 0 END` emits
exactly one RawTranscript, whose text is `"hello world"`. -/
theorem block_mode_emits_hello_world :
    ((processLines (startStreaming (initWState ("microphone") false) ("sess")).2
        ["### Transcription 0 START",
         "[00:00:00.000 --> 00:00:02.000] hello",
         "[00:00:02.000 --> 00:00:04.000] world",
         "### Transcription 0 END"]).accumulated_transcripts.map fun t => t.text) =
      ["hello world"] := by decide

/-- C3: the fixed-interval line classifier `_is_transcript_line` rejects the
line `"hello there my friend"` (and `_process_line` therefore emits nothing
for it) although the line is non-empty, at most 150 characters long, not
pure punctuation/digits, not a bare timestamp, matches no diagnostic-line
prefix, and is not shorter than the 10-character minimum content length:
the function's final fallthrough is an unconditional `return False`, so
every line of 150 characters or fewer is rejected no matter what the
claimed accept rules say. -/
theorem fixed_interval_classifier_rejects_valid_line :
    isTranscriptLine ("hello there my friend") = false ∧
    processLine (startStreaming (initWState ("microphone") true) ("sess")).2
        ("hello there my friend") =
      (startStreaming (initWState ("microphone") true) ("sess")).2 ∧
    (pyStrip ("hello there my friend") == "") = false ∧
    (pyStrip ("hello there my friend")).toList.length ≤ 150 ∧
    isPunctOrDigitsOnly (pyStrip ("hello there my friend")) = false ∧
    isBareTimestamp (pyStrip ("hello there my friend")) = false ∧
    startsWithMainDiag (pyStrip ("hello there my friend")) = false ∧
    startsWithPat ("whisper_") (pyStrip ("hello there my friend")) = false ∧
    startsWithPat ("ggml_") (pyStrip ("hello there my friend")) = false ∧
    10 ≤ (pyStrip ("hello there my friend")).toList.length := by decide

/-- C10: `stop_streaming` on a running processor leaves the
accumulated-transcripts buffer untouched (it only reports its length in the
result), so the unflushed transcripts are still readable through
`get_accumulated_transcripts` after the stop. -/
theorem stop_streaming_preserves_accumulated (st : WState)
    (h : st.is_running = true) :
    (stopStreaming st).2.accumulated_transcripts = st.accumulated_transcripts ∧
    getAccumulatedTranscripts (stopStreaming st).2 = st.accumulated_transcripts ∧
    (stopStreaming st).1 = StopOutcome.stats st.session_id st.total_transcripts
        st.accumulated_transcripts.length st.processing_errors := by
  unfold stopStreaming getAccumulatedTranscripts
  rw [h]
  exact ⟨rfl, rfl, rfl⟩

/-- Witness for C10 at a concrete running processor. -/
theorem stop_streaming_preserves_accumulated_witness :
    (stopStreaming (startStreaming (initWState ("microphone") false) ("sess")).2).2.accumulated_transcripts
      = (startStreaming (initWState ("microphone") false) ("sess")).2.accumulated_transcripts :=
  (stop_streaming_preserves_accumulated
    ((startStreaming (initWState ("microphone") false) ("sess")).2) (by decide)).1

/-- Shape of a pause/resume result dictionary: either success with no error
entry, or failure with an error message present. -/
def resultShapeOK (r : OpResult) : Prop :=
  (r.success = true ∧ r.error = none) ∨ (r.success = false ∧ r.error.isSome = true)

/-- C6: in every state, `pause_streaming` and `resume_streaming` return a
result of shape `(success, error?)`: a success flag, with an error message
exactly when the operation failed.  (The operations are modelled from the
spec, §4.1, since the class in src/ does not define them — only their
callers in app.py exist.) -/
theorem pause_resume_return_success_error_shape (s : PauseState) :
    resultShapeOK (pause_streaming s).1 ∧ resultShapeOK (resume_streaming s).1 := by
  rcases s with ⟨ir, ip⟩
  cases ir <;> cases ip
  · exact ⟨Or.inr ⟨rfl, rfl⟩, Or.inr ⟨rfl, rfl⟩⟩
  · exact ⟨Or.inr ⟨rfl, rfl⟩, Or.inr ⟨rfl, rfl⟩⟩
  · exact ⟨Or.inl ⟨rfl, rfl⟩, Or.inr ⟨rfl, rfl⟩⟩
  · exact ⟨Or.inr ⟨rfl, rfl⟩, Or.inl ⟨rfl, rfl⟩⟩

/-- A saturated stream queue (bound 1, one event already enqueued). -/
def fullQ : StreamQueue :=
  { maxsize := 1, items := [{ etype := "raw_transcript", timestamp := 0 }] }

/-- C5 counterexample: publishing to a full stream queue leaves the entire
mutable state unchanged — the event is dropped and the full-queue warning is
printed, but nothing is counted: the module keeps no drop counter at all, so
the claimed "drop counter is incremented" is false (an incremented counter
would have to live in the state, which is exactly the same before and
after). -/
theorem publish_full_queue_increments_nothing :
    sendSessionEvent fullQ ("session_started") 1 =
      { queue := fullQ, raised := false, warned := true } := by decide

/-- C5 amended: publishing never blocks and never raises to the caller; on
a non-full queue the event is appended, and on a full queue the event is
dropped with only a printed warning — the state is returned unchanged and no
drop counter is incremented. -/
theorem publish_never_blocks_never_raises (q : StreamQueue) (et : String) (n : Nat) :
    (sendSessionEvent q et n).raised = false ∧
    (q.items.length < q.maxsize →
      (sendSessionEvent q et n).queue.items =
        q.items ++ [{ etype := et, timestamp := n }] ∧
      (sendSessionEvent q et n).warned = false) ∧
    (¬ q.items.length < q.maxsize →
      sendSessionEvent q et n = { queue := q, raised := false, warned := true }) := by
  unfold sendSessionEvent
  by_cases h : q.items.length < q.maxsize
  · rw [if_pos h]
    exact ⟨rfl, fun _ => ⟨rfl, rfl⟩, fun hc => absurd h hc⟩
  · rw [if_neg h]
    exact ⟨rfl, fun hc => absurd hc h, fun _ => rfl⟩

/-- A second saturated stream queue, for the C5 witness. -/
def fullQB : StreamQueue :=
  { maxsize := 2,
    items := [{ etype := "raw_transcript", timestamp := 0 },
              { etype := "heartbeat", timestamp := 1 }] }

/-- Witness for C5 amended at a concrete saturated queue. -/
theorem publish_never_blocks_never_raises_witness :
    sendSessionEvent fullQB ("llm_processing_start") 2 =
      { queue := fullQB, raised := false, warned := true } :=
  (publish_never_blocks_never_raises fullQB ("llm_processing_start") 2).2.2 (by decide)

/-- Barrier state in which the worker has already popped the final merge job
of session `s1` (`processing_queue.pop(0)`) and is still processing it: the
queue itself is empty, so `get_queue_status` reports nothing, although the
job — `queued` in the source dictionary, `processing` in the spec's data
model — is still in flight. -/
def cxBarrier : AppState :=
  { llm := { processing_queue := [],
             is_processing := true,
             current_job := some { job_id := 0, session_id := "s1",
                                   status := "queued", transcript_count := 2 } },
    waiting := ["s1"],
    summaries_submitted := [] }

/-- C1 counterexample: with a merge job of session `s1` still processing
(popped by the worker, not yet finished), a trigger of the completion
barrier nevertheless submits the summary job — the barrier only inspects
`get_queue_status`, which lists the jobs still sitting in
`processing_queue`, and the in-flight job is no longer among them.  This
refutes the claim that the summary job is submitted only once no merge job
of the session is `queued` or `processing`. -/
theorem barrier_submits_despite_processing_job :
    mergeJobStillPending cxBarrier ("s1") = true ∧
    countSummaries cxBarrier ("s1") = 0 ∧
    countSummaries (checkAndGenerate ("s1") cxBarrier) ("s1") = 1 := by decide

/-- C1 amended: the completion barrier defers (is a strict no-op) as long as
a merge job of the session is still in the `processing_queue` (status
`queued`); only jobs already popped by the worker escape the check. -/
theorem barrier_defers_on_queued_job (st : AppState) (sid : String) (j : MergeJob)
    (hmem : j ∈ st.llm.processing_queue) (hsid : j.session_id = sid)
    (hstatus : j.status = "queued") :
    checkAndGenerate sid st = st := by
  unfold checkAndGenerate
  split
  · have hj : j ∈ (getQueueStatus st.llm).filter fun j =>
        j.session_id == sid && (j.status == "queued" || j.status == "processing") := by
      refine List.mem_filter.mpr ⟨hmem, ?_⟩
      simp [hsid, hstatus]
    split
    · next hpend =>
      rw [hpend] at hj
      cases hj
    · rfl
  · rfl

/-- Barrier state with the final merge job of session `s2` still queued. -/
def wBarrier : AppState :=
  { llm := { processing_queue := [{ job_id := 7, session_id := "s2",
                                    status := "queued", transcript_count := 3 }],
             is_processing := false,
             current_job := none },
    waiting := ["s2"],
    summaries_submitted := [] }

/-- Witness for C1 amended at a concrete state with a queued job. -/
theorem barrier_defers_on_queued_job_witness :
    checkAndGenerate ("s2") wBarrier = wBarrier :=
  barrier_defers_on_queued_job wBarrier ("s2")
    { job_id := 7, session_id := "s2", status := "queued", transcript_count := 3 }
    (by decide) (by decide) (by decide)

/-- Helper for C2: a trigger for any session never adds `sid` back to the
pending-summary set and never submits a summary for a session not in the
set. -/
theorem checkAndGenerate_preserves_absent (st : AppState) (sid x : String)
    (h : sid ∉ st.waiting) :
    sid ∉ (checkAndGenerate x st).waiting ∧
    countSummaries (checkAndGenerate x st) sid = countSummaries st sid := by
  unfold checkAndGenerate
  split
  · next hx =>
    split
    · constructor
      · intro hmem
        exact h (List.mem_of_mem_filter hmem)
      · have hxs : (x == sid) = false := by
          refine beq_eq_false_iff_ne.mpr ?_
          intro he
          exact h (he ▸ hx)
        simp [countSummaries, List.count_append, List.count_cons, List.count_nil, hxs]
    · exact ⟨h, rfl⟩
  · exact ⟨h, rfl⟩

/-- C2: once the completion barrier has cleared for a session (its id is no
longer in the pending-summary set), any further trigger for that session is
a strict no-op on the state, and no sequence of further triggers (for any
sessions) ever submits another summary job for it. -/
theorem barrier_idempotent_after_clearing (st : AppState) (sid : String)
    (h : sid ∉ st.waiting) (l : List String) :
    checkAndGenerate sid st = st ∧
    countSummaries (applyTriggers l st) sid = countSummaries st sid := by
  constructor
  · unfold checkAndGenerate
    rw [if_neg h]
  · induction l generalizing st with
    | nil => rfl
    | cons x xs ih =>
      have hstep := checkAndGenerate_preserves_absent st sid x h
      have hrun : applyTriggers (x :: xs) st = applyTriggers xs (checkAndGenerate x st) := rfl
      rw [hrun, ih (checkAndGenerate x st) hstep.1, hstep.2]

/-- Barrier state of a session whose summary generation has already
started. -/
def wCleared : AppState :=
  { llm := { processing_queue := [], is_processing := false, current_job := none },
    waiting := [],
    summaries_submitted := ["s3"] }

/-- Witness for C2 at a concrete cleared state, retriggering twice. -/
theorem barrier_idempotent_after_clearing_witness :
    checkAndGenerate ("s3") wCleared = wCleared ∧
    countSummaries (applyTriggers ["s3", "s3"] wCleared) ("s3") =
      countSummaries wCleared ("s3") :=
  barrier_idempotent_after_clearing wCleared ("s3") (by decide) ["s3", "s3"]

/-- C4 counterexample: two `process_transcripts_async` calls spawn two
worker threads; because `if self.is_processing` and
`self.is_processing = True` are separate statements, the schedule below lets
both threads pass the busy check before either sets the flag, and both end
up processing a job at the same time — refuting "at most one job is being
processed at any time".  The schedule: both threads run the loop-head and
busy checks, then thread 0 acquires and pops job 0, then thread 1 acquires
and pops job 1. -/
theorem merge_queue_processes_two_jobs_concurrently :
    countProcessing (runQ
      [QAction.submitA ("s1"), QAction.submitA ("s1"),
       QAction.stepA 0, QAction.stepA 1, QAction.stepA 0, QAction.stepA 1,
       QAction.stepA 0, QAction.stepA 0, QAction.stepA 1, QAction.stepA 1]) = 2 := by
  decide

/-- FIFO invariant of the merge queue: the submission history is exactly the
started-jobs history followed by the jobs still queued, in order. -/
def fifoInv (c : QConfig) : Prop :=
  c.submitted = c.started ++ (c.queue.map fun j => j.job_id)

/-- Submissions preserve the FIFO invariant. -/
theorem fifoInv_submit (c : QConfig) (sid : String) (h : fifoInv c) :
    fifoInv (submitJob c sid) := by
  unfold fifoInv at *
  unfold submitJob
  simp only [List.map_append, List.map_cons, List.map_nil]
  rw [h, List.append_assoc]

/-- Single-statement steps preserve the FIFO invariant. -/
theorem fifoInv_tstepPc (c : QConfig) (i : Nat) (pc : TPc) (h : fifoInv c) :
    fifoInv (tstepPc c i pc) := by
  cases pc with
  | loopHead =>
    simp only [tstepPc]
    split
    · exact h
    · exact h
  | busyCheck =>
    simp only [tstepPc]
    split
    · exact h
    · exact h
  | acquire => exact h
  | popJob =>
    simp only [tstepPc]
    cases hq : c.queue with
    | nil =>
      show c.submitted = c.started ++ (List.map (fun j => j.job_id) ([] : List MergeJob))
      unfold fifoInv at h
      rw [hq] at h
      exact h
    | cons j rest =>
      show c.submitted = (c.started ++ [j.job_id]) ++ (rest.map fun j => j.job_id)
      unfold fifoInv at h
      rw [hq] at h
      simp only [List.map_cons] at h
      rw [h, List.append_assoc, List.singleton_append]
  | processing jid => exact h
  | release => exact h
  | halted => exact h

/-- Worker-thread steps preserve the FIFO invariant. -/
theorem fifoInv_tstep (c : QConfig) (i : Nat) (h : fifoInv c) :
    fifoInv (tstep c i) := by
  unfold tstep
  cases c.threads.get? i with
  | none => exact h
  | some pc => exact fifoInv_tstepPc c i pc h

/-- C4 amended: in every schedule, jobs are dequeued in exactly their
submission order — the worker always removes the head of
`processing_queue`, so the sequence of started jobs is a prefix of the
submission sequence with the still-queued jobs making up the rest.  (The
"one at a time" half of the original claim fails; see the counterexample.) -/
theorem merge_jobs_started_in_submission_order (acts : List QAction) :
    (runQ acts).submitted =
      (runQ acts).started ++ ((runQ acts).queue.map fun j => j.job_id) := by
  suffices h : ∀ c, fifoInv c → fifoInv (runQFrom c acts) from h initQ rfl
  induction acts with
  | nil => exact fun c h => h
  | cons a as ih =>
    intro c h
    have h2 : fifoInv
        (match a with
         | QAction.submitA sid => submitJob c sid
         | QAction.stepA i => tstep c i) := by
      cases a with
      | submitA sid => exact fifoInv_submit c sid h
      | stepA i => exact fifoInv_tstep c i h
    exact ih _ h2

/-- C7 counterexample: the response
`{"summary": 1, "keywords": [1, 2, 3, 4, 5]}` does not parse into an object
with a summary string and five keyword strings — yet the summary job does
not fall back to the raw text: the source never checks the types of the
summary value or the keyword items, so it returns summary `1` and the five
numbers as keywords rather than the whole raw response with an empty keyword
list. -/
theorem summary_fallback_skips_type_mismatch :
    claimSummaryShape (jsonLoads
        ("\x7b\"summary\": 1, \"keywords\": [1, 2, 3, 4, 5]\x7d")) = false ∧
    (generateSessionSummary ["merged"] ("s1")
        ("\x7b\"summary\": 1, \"keywords\": [1, 2, 3, 4, 5]\x7d")).status = "success" ∧
    (generateSessionSummary ["merged"] ("s1")
        ("\x7b\"summary\": 1, \"keywords\": [1, 2, 3, 4, 5]\x7d")).summary =
      some (Json.num 1) ∧
    (generateSessionSummary ["merged"] ("s1")
        ("\x7b\"summary\": 1, \"keywords\": [1, 2, 3, 4, 5]\x7d")).summary ≠
      some (Json.str ("\x7b\"summary\": 1, \"keywords\": [1, 2, 3, 4, 5]\x7d")) ∧
    (generateSessionSummary ["merged"] ("s1")
        ("\x7b\"summary\": 1, \"keywords\": [1, 2, 3, 4, 5]\x7d")).keywords ≠
      some [] := by
  refine ⟨rfl, rfl, rfl, ?_, ?_⟩
  · intro h
    have h2 := Option.some.inj h
    rw [show (generateSessionSummary ["merged"] ("s1")
        ("\x7b\"summary\": 1, \"keywords\": [1, 2, 3, 4, 5]\x7d")).summary =
      some (Json.num 1) from rfl] at h
    exact Json.noConfusion (Option.some.inj h)
  · intro h
    rw [show (generateSessionSummary ["merged"] ("s1")
        ("\x7b\"summary\": 1, \"keywords\": [1, 2, 3, 4, 5]\x7d")).keywords =
      some [Json.num 1, Json.num 2, Json.num 3, Json.num 4, Json.num 5] from rfl] at h
    exact List.noConfusion (Option.some.inj h)

/-- C7 amended: whenever the response content fails to parse as JSON or
fails the shape checks the source actually performs (a dict containing
`summary` and `keywords` with `keywords` a list of exactly five items — the
value types are not checked), `generate_session_summary` does not fail: it
returns a success result whose summary is the entire (stripped) raw response
text and whose keyword list is empty. -/
theorem summary_parse_failure_falls_back (processed : List String)
    (sid content : String) (hne : processed ≠ [])
    (h : (jsonLoads (pyStrip content)).bind summaryShape = none) :
    generateSessionSummary processed sid content =
      { session_id := sid, status := "success",
        summary := some (Json.str (pyStrip content)), keywords := some [] } := by
  unfold generateSessionSummary
  rw [if_neg hne, h]

/-- Witness for C7 amended on the spec's malformed response
`"just some text"`, which is not valid JSON. -/
theorem summary_parse_failure_falls_back_witness :
    generateSessionSummary ["merged transcript"] ("s9") ("just some text") =
      { session_id := ("s9"), status := "success",
        summary := some (Json.str ("just some text")), keywords := some [] } :=
  summary_parse_failure_falls_back ["merged transcript"] ("s9") ("just some text")
    (by decide) (by rfl)

/-- Sequence-number invariant of a processor state: the counter equals the
number of accumulated transcripts and their sequence numbers are exactly
`1, 2, …, n` in emission order. -/
def seqInv (st : WState) : Prop :=
  st.transcript_counter = st.accumulated_transcripts.length ∧
  (st.accumulated_transcripts.map fun t => t.sequence_number) =
    List.range' 1 st.accumulated_transcripts.length

/-- Emitting one transcript preserves the sequence-number invariant. -/
theorem emitTranscript_seqInv (st : WState) (text : String) (h : seqInv st) :
    seqInv (emitTranscript st text) := by
  obtain ⟨h1, h2⟩ := h
  unfold seqInv emitTranscript
  constructor
  · simp [h1]
  · simp only [List.map_append, List.map_cons, List.map_nil, List.length_append,
      List.length_cons, List.length_nil]
    rw [h2, h1, Nat.add_zero, List.range'_1_concat, Nat.add_comm]

/-- A single parsed line preserves the sequence-number invariant. -/
theorem processLine_seqInv (st : WState) (l : String) (h : seqInv st) :
    seqInv (processLine st l) := by
  have hA : ∀ b, seqInv (addTranscriptBlock st b) := by
    intro b
    unfold addTranscriptBlock
    split
    · exact h
    · exact emitTranscript_seqInv st _ h
  have hD : ∀ s2, seqInv (addDirectTranscript st s2) := by
    intro s2
    unfold addDirectTranscript
    split
    · exact h
    · exact emitTranscript_seqInv st _ h
  unfold processLine processLineCore
  split
  · exact h
  · split
    · exact h
    · split
      · split
        · exact hA _
        · exact h
      · split
        · exact h
        · split
          · split
            · exact hD _
            · exact h
          · exact h

/-- Every parsed line sequence preserves the sequence-number invariant. -/
theorem processLines_seqInv (lines : List String) (st : WState) (h : seqInv st) :
    seqInv (processLines st lines) := by
  induction lines generalizing st with
  | nil => exact h
  | cons l ls ih => exact ih (processLine st l) (processLine_seqInv st l h)

/-- A successful `start_streaming` resets the counter and the accumulator,
so the invariant holds in the fresh session state. -/
theorem startStreaming_seqInv (st : WState) (sid : String)
    (h : (startStreaming st sid).1 = true) :
    seqInv (startStreaming st sid).2 := by
  unfold startStreaming at h ⊢
  by_cases h1 : st.is_running = true
  · rw [if_pos h1] at h
    exact Bool.noConfusion h
  · rw [if_neg h1] at h ⊢
    by_cases h2 : (!st.binary_exists) = true
    · rw [if_pos h2] at h
      exact Bool.noConfusion h
    · rw [if_neg h2] at h ⊢
      by_cases h3 : (!st.model_exists) = true
      · rw [if_pos h3] at h
        exact Bool.noConfusion h
      · rw [if_neg h3] at h ⊢
        exact ⟨rfl, rfl⟩

/-- C8: after any successful `start_streaming` — including a restart of a
previously used processor, whose counter is reset — the sequence numbers of
the accumulated transcripts produced by any subprocess output are exactly
`1, 2, …, n` in emission order: strictly increasing, starting at 1 for each
new session. -/
theorem sequence_numbers_start_at_one (st : WState) (sid : String)
    (lines : List String) (h : (startStreaming st sid).1 = true) :
    ((processLines (startStreaming st sid).2 lines).accumulated_transcripts.map
        fun t => t.sequence_number) =
      List.range' 1
        (processLines (startStreaming st sid).2 lines).accumulated_transcripts.length :=
  (processLines_seqInv lines _ (startStreaming_seqInv st sid h)).2

/-- Witness for C8: a fresh processor, two emitted blocks. -/
theorem sequence_numbers_start_at_one_witness :
    ((processLines (startStreaming (initWState ("system") false) ("w")).2
        ["### Transcription 1 START",
         "[00:00:00.000 --> 00:00:01.000] alpha",
         "### Transcription 1 END",
         "### Transcription 2 START",
         "[00:00:01.000 --> 00:00:02.000] beta",
         "### Transcription 2 END"]).accumulated_transcripts.map
        fun t => t.sequence_number) =
      List.range' 1
        (processLines (startStreaming (initWState ("system") false) ("w")).2
          ["### Transcription 1 START",
           "[00:00:00.000 --> 00:00:01.000] alpha",
           "### Transcription 1 END",
           "### Transcription 2 START",
           "[00:00:01.000 --> 00:00:02.000] beta",
           "### Transcription 2 END"]).accumulated_transcripts.length :=
  sequence_numbers_start_at_one (initWState ("system") false) ("w") _ (by decide)

end VMT
